import Mathlib

/-!
Shallow embedding of the .drp adapter (otio_drp_adapter/adapters/drp.py,
function read_from_file) for verification.

Modelling conventions:
- Timecodes are modelled by their frame count at the rate of the file, i.e.
  by the integer that otio.opentime.from_timecode returns for them; the
  rational-time arithmetic primitives are external collaborators, so the
  conversion string -> frame count is abstracted away and subtraction and
  addition of RationalTime values at a common rate become Int arithmetic.
  Consequently the videoMode / rate parsing, which only feeds that
  conversion, is absorbed by the abstraction.
- A JSON object is modelled by a structure holding exactly the keys the
  code reads; keys the code reads optionally (guarded by membership tests
  or a try/except) are Option fields.
- Python exceptions become an error type threaded through Except: a raised
  exception escapes read_from_file, so no timeline is returned on any
  error path, which the Except model reproduces.
- json.loads of an event line is modelled by the Line type: a line is
  blank (stripping yields the empty string, whose decode raises
  JSONDecodeError), decodes to a switch-event object, or is undecodable.
-/

namespace Drp

/-- Errors raised along the paths of read_from_file. -/
inductive DrpError where
  /-- json.loads raised JSONDecodeError on an event line. -/
  | jsonDecodeError
  /-- raise Exception("No sources in drp file") at the "sources" check. -/
  | noSources
  /-- IndexError: list index out of range (timeline_data[-1] on an empty
      list, or mixEffectBlocks[0] on an empty array). -/
  | indexError
  /-- KeyError from a dict lookup (extrefs[current_source]). -/
  | keyError
deriving DecidableEq, Repr

/-- One entry of the "sources" array of the header: "_index_" (an int, the
    catalogue key), "name", and optionally "file". -/
structure Source where
  index_ : Int
  name : String
  file : Option String
deriving DecidableEq, Repr

/-- One entry of a "mixEffectBlocks" array; the code only ever reads the
    optional "source" key of entry 0. -/
structure MixEffectBlock where
  source : Option Int
deriving DecidableEq, Repr

/-- An event line decoded from JSON: "masterTimecode" (modelled as its
    frame count) and "mixEffectBlocks". -/
structure SwitchEvent where
  masterTimecode : Int
  mixEffectBlocks : List MixEffectBlock
deriving DecidableEq, Repr

/-- The header object of line 1, with the keys the code reads.
    "sources" and "mixEffectBlocks" are Option: the code tests membership
    of "sources" and guards the "mixEffectBlocks" access by try/except. -/
structure Metadata where
  masterTimecode : Int
  sources : Option (List Source)
  mixEffectBlocks : Option (List MixEffectBlock)
deriving DecidableEq, Repr

/-- otio.opentime.TimeRange at the rate of the file: start_time and
    duration, both as frame counts. -/
structure TimeRange where
  start_time : Int
  duration : Int
deriving DecidableEq, Repr

/-- otio.schema.ExternalReference: target_url plus available_range. -/
structure ExternalReference where
  target_url : String
  available_range : TimeRange
deriving DecidableEq, Repr

/-- The value stored in the extrefs dict for one source: the code stores
    the source dict itself after adding a "ref" entry; the loop reads only
    "name" and "ref" back out. -/
structure SrcEntry where
  name : String
  ref : Option ExternalReference
deriving DecidableEq, Repr

/-- otio.schema.Clip as the loop builds it: name, media_reference and
    source_range. -/
structure Clip where
  name : String
  media_reference : Option ExternalReference
  source_range : TimeRange
deriving DecidableEq, Repr

/-- otio.schema.Track: its name and the clips appended to it, in order. -/
structure Track where
  name : String
  clips : List Clip
deriving DecidableEq, Repr

/-- otio.schema.Timeline: its name and its tracks (the code appends a
    single track). -/
structure Timeline where
  name : String
  tracks : List Track
deriving DecidableEq, Repr

/-- An event line of the input file as json.loads sees it after strip():
    blank (decode of "" raises), a decodable switch-event object, or an
    undecodable payload. -/
inductive Line where
  | blank
  | good (event : SwitchEvent)
  | bad
deriving DecidableEq, Repr

/-- json.loads(line.strip()) for one event line: a blank line strips to
    the empty string, which raises JSONDecodeError, exactly like an
    undecodable line. -/
def decodeLine : Line → Except DrpError SwitchEvent
  | Line.blank => Except.error DrpError.jsonDecodeError
  | Line.good e => Except.ok e
  | Line.bad => Except.error DrpError.jsonDecodeError

/-- The eager decode loop over the event lines (lines 28 - 30 of drp.py):
    timeline_data += [json.loads(line.strip())] for each line, stopping at
    the first raised exception. -/
def parseEvents : List Line → Except DrpError (List SwitchEvent)
  | [] => Except.ok []
  | l :: rest =>
    match decodeLine l with
    | Except.error e => Except.error e
    | Except.ok ev =>
      match parseEvents rest with
      | Except.error e => Except.error e
      | Except.ok evs => Except.ok (ev :: evs)

/-- os.path.basename for the forward-slash paths the adapter deals with. -/
def basename (p : String) : String := ((p.splitOn "/").getLast?).getD p

/-- The timeline name: basename(filepath[:-4]), the filename with the
    ".drp" suffix cut off. -/
def timelineNameOf (filepath : String) : String :=
  basename (String.dropRight filepath 4)

/-- Building the extrefs dict (lines 62 - 73): for each source, a "ref"
    (an ExternalReference scoped to available_range when the source has a
    "file", None otherwise) keyed by "_index_", in iteration order. -/
def buildExtrefs (available_range : TimeRange) : List Source → List (Int × SrcEntry)
  | [] => []
  | src :: rest =>
    let ref : Option ExternalReference :=
      match src.file with
      | some f => some { target_url := f, available_range := available_range }
      | none => none
    (src.index_, { name := src.name, ref := ref }) :: buildExtrefs available_range rest

/-- Python dict lookup on the association list built in insertion order:
    a later binding of the same key overwrites an earlier one, so the last
    matching entry wins; an absent key is a KeyError at the call site. -/
def dictGet (d : List (Int × SrcEntry)) (k : Int) : Option SrcEntry :=
  match d with
  | [] => none
  | (k0, v) :: rest =>
    match dictGet rest k with
    | some v0 => some v0
    | none => if k0 = k then some v else none

/-- The try/except around metadata["mixEffectBlocks"][0]["source"]
    (lines 76 - 79): a KeyError (missing "mixEffectBlocks" key, or missing
    "source" key on the first block) is caught and defaults to 0, but the
    IndexError raised by [0] on an empty array is not caught. -/
def initialSource (metadata : Metadata) : Except DrpError Int :=
  match metadata.mixEffectBlocks with
  | none => Except.ok 0
  | some [] => Except.error DrpError.indexError
  | some (b :: _) =>
    match b.source with
    | none => Except.ok 0
    | some s => Except.ok s

/-- The switch loop (lines 82 - 105), with the threaded state explicit:
    er is the extrefs dict, tcRef the reference frame, then the running
    cursor current_tc, the running current_source, and the remaining
    events. Each iteration computes next_clip_frames as the event frame
    minus the reference frame, looks the active source up in extrefs
    (KeyError when absent), builds the clip with source_range
    TimeRange(current_tc, next_clip_frames), appends it, advances
    current_tc by next_clip_frames, then either switches
    current_source or breaks when the first block of the event has no
    "source" key; an event whose mixEffectBlocks array is empty raises
    IndexError at the membership test. -/
def reconstruct (er : List (Int × SrcEntry)) (tcRef : Int) :
    Int → Int → List SwitchEvent → Except DrpError (List Clip)
  | _, _, [] => Except.ok []
  | current_tc, current_source, c :: rest =>
    let next_clip_frames := c.masterTimecode - tcRef
    match dictGet er current_source with
    | none => Except.error DrpError.keyError
    | some src =>
      let clip : Clip :=
        { name := src.name
          media_reference := src.ref
          source_range := { start_time := current_tc, duration := next_clip_frames } }
      match c.mixEffectBlocks with
      | [] => Except.error DrpError.indexError
      | b :: _ =>
        match b.source with
        | some s =>
          match reconstruct er tcRef (current_tc + next_clip_frames) s rest with
          | Except.error e => Except.error e
          | Except.ok clips => Except.ok (clip :: clips)
        | none => Except.ok [clip]

/-- read_from_file, after the file has been split into its first line
    (already decoded into metadata; a header decode failure is fatal
    before anything below runs) and the remaining event lines. The steps
    follow the code in order: decode every event line eagerly, check the
    "sources" key, read the reference timecode, take timeline_data[-1] to
    size the shared available_range, build extrefs, read the initial
    current_source, then run the switch loop and return the single-track
    timeline named after the file. -/
def read_from_file (filepath : String) (metadata : Metadata) (lines : List Line) :
    Except DrpError Timeline :=
  match parseEvents lines with
  | Except.error e => Except.error e
  | Except.ok timeline_data =>
    match metadata.sources with
    | none => Except.error DrpError.noSources
    | some srcs =>
      let tcRef : Int := metadata.masterTimecode
      let current_tc : Int := 0
      match timeline_data.getLast? with
      | none => Except.error DrpError.indexError
      | some lastEv =>
        let duration := lastEv.masterTimecode - tcRef
        let available_range : TimeRange := { start_time := current_tc, duration := duration }
        let extrefs := buildExtrefs available_range srcs
        match initialSource metadata with
        | Except.error e => Except.error e
        | Except.ok current_source =>
          match reconstruct extrefs tcRef current_tc current_source timeline_data with
          | Except.error e => Except.error e
          | Except.ok clips =>
            Except.ok
              { name := timelineNameOf filepath
                tracks := [{ name := "Main Mix", clips := clips }] }

/-! Concrete fixtures used by the evaluation theorems and witnesses. -/

/-- A source without a backing file, catalogued at index 0. -/
def camA : Source := { index_ := 0, name := "Cam A", file := none }

/-- A file-backed source catalogued at index 2. -/
def camB : Source := { index_ := 2, name := "Cam B", file := some "/media/camB.mov" }

/-- A header whose reference timecode sits at frame 100, with two
    catalogued sources and initial on-air source 0. -/
def exMeta : Metadata :=
  { masterTimecode := 100
    sources := some [camA, camB]
    mixEffectBlocks := some [{ source := some 0 }] }

/-- A switch to source 2 recorded at frame 110 (offset 10 from the
    reference). -/
def ev1 : SwitchEvent := { masterTimecode := 110, mixEffectBlocks := [{ source := some 2 }] }

/-- The terminal event at frame 120 (offset 20): its first block carries
    no "source" key. -/
def ev2 : SwitchEvent := { masterTimecode := 120, mixEffectBlocks := [{ source := none }] }

/-- A further switch event at frame 130, sitting after the terminal
    event. -/
def ev3 : SwitchEvent := { masterTimecode := 130, mixEffectBlocks := [{ source := some 0 }] }

/-- The two event lines of the concrete example. -/
def exLines : List Line := [Line.good ev1, Line.good ev2]

/-- The available range the example derives: frames 0 to 20. -/
def exRange : TimeRange := { start_time := 0, duration := 20 }

/-- The extrefs dict of the example. -/
def exExtrefs : List (Int × SrcEntry) := buildExtrefs exRange [camA, camB]

/-- First emitted clip of the example: Cam A, frames [0, 10). -/
def exClip1 : Clip :=
  { name := "Cam A", media_reference := none
    source_range := { start_time := 0, duration := 10 } }

/-- Second emitted clip of the example: Cam B, start 10 and duration 20
    (the second event frame offset taken absolutely, not the 10-frame
    interval since the previous event). -/
def exClip2 : Clip :=
  { name := "Cam B"
    media_reference := some { target_url := "/media/camB.mov", available_range := exRange }
    source_range := { start_time := 10, duration := 20 } }

/-- The clip list the code produces on the example. -/
def exClips : List Clip := [exClip1, exClip2]

/-- The timeline the code produces on the example. -/
def exTl : Timeline :=
  { name := timelineNameOf "show.drp"
    tracks := [{ name := "Main Mix", clips := exClips }] }

/-- A header without the "sources" key. -/
def mdNoSources : Metadata :=
  { masterTimecode := 100, sources := none, mixEffectBlocks := some [{ source := some 0 }] }

/-- A header whose "sources" array is present but empty. -/
def mdEmptySources : Metadata :=
  { masterTimecode := 100, sources := some [], mixEffectBlocks := some [{ source := some 0 }] }

/-- A header without the "mixEffectBlocks" key. -/
def mdNoMEB : Metadata :=
  { masterTimecode := 100, sources := some [camA], mixEffectBlocks := none }

/-- A header whose first mix-effect block has no "source" key. -/
def mdNoSourceKey : Metadata :=
  { masterTimecode := 100, sources := some [camA], mixEffectBlocks := some [{ source := none }] }

/-- A header whose "mixEffectBlocks" array is present but empty. -/
def mdEmptyMEB : Metadata :=
  { masterTimecode := 100, sources := some [camA, camB], mixEffectBlocks := some [] }

/-- Total of the emitted durations, as the spec sums them. -/
def sumDurations (clips : List Clip) : Int :=
  clips.foldl (fun a c => a + c.source_range.duration) 0

/-- Modelled from the spec: "Compute duration = eventFrame − currentFrame",
    the length of the interval since the previous event. -/
def specDuration (eventFrame currentFrame : Int) : Int := eventFrame - currentFrame

/-- The clips of a list are contiguous from cursor t: each starts where
    the cursor stands and moves it forward by its duration. -/
def contiguousFrom (t : Int) : List Clip → Prop
  | [] => True
  | c :: rest => c.source_range.start_time = t ∧ contiguousFrom (t + c.source_range.duration) rest

/-! Helper lemmas. -/

lemma parseEvents_jsonError_of_mem (lines : List Line)
    (h : Line.blank ∈ lines ∨ Line.bad ∈ lines) :
    parseEvents lines = Except.error DrpError.jsonDecodeError := by
  induction lines with
  | nil => simp at h
  | cons l rest ih =>
    cases l with
    | blank => simp [parseEvents, decodeLine]
    | bad => simp [parseEvents, decodeLine]
    | good e =>
      have hr : Line.blank ∈ rest ∨ Line.bad ∈ rest := by
        rcases h with h1 | h1
        · rcases List.mem_cons.mp h1 with h2 | h2
          · exact absurd h2 (by simp)
          · exact Or.inl h2
        · rcases List.mem_cons.mp h1 with h2 | h2
          · exact absurd h2 (by simp)
          · exact Or.inr h2
      simp [parseEvents, decodeLine, ih hr]

lemma reconstruct_contiguous (er : List (Int × SrcEntry)) (tcRef : Int) :
    ∀ (evs : List SwitchEvent) (t s : Int) (clips : List Clip),
      reconstruct er tcRef t s evs = Except.ok clips → contiguousFrom t clips := by
  intro evs
  induction evs with
  | nil =>
    intro t s clips h
    simp [reconstruct] at h
    subst h
    trivial
  | cons c rest ih =>
    intro t s clips h
    cases hd : dictGet er s with
    | none => simp [reconstruct, hd] at h
    | some src =>
      cases hm : c.mixEffectBlocks with
      | nil => simp [reconstruct, hd, hm] at h
      | cons b l =>
        cases hb : b.source with
        | none =>
          simp [reconstruct, hd, hm, hb] at h
          subst h
          exact ⟨rfl, trivial⟩
        | some s2 =>
          cases hr : reconstruct er tcRef (t + (c.masterTimecode - tcRef)) s2 rest with
          | error e => simp [reconstruct, hd, hm, hb, hr] at h
          | ok cs =>
            simp [reconstruct, hd, hm, hb, hr] at h
            subst h
            exact ⟨rfl, ih (t + (c.masterTimecode - tcRef)) s2 cs hr⟩

lemma contiguousFrom_getElem (cs : List Clip) :
    ∀ (t : Int), contiguousFrom t cs →
      (∀ c0, cs[0]? = some c0 → c0.source_range.start_time = t) ∧
      (∀ i ci cj, cs[i]? = some ci → cs[i + 1]? = some cj →
        cj.source_range.start_time = ci.source_range.start_time + ci.source_range.duration) := by
  induction cs with
  | nil =>
    intro t _
    constructor
    · intro c0 h0; simp at h0
    · intro i ci cj hi _; simp at hi
  | cons c rest ih =>
    intro t h
    obtain ⟨hstart, hrest⟩ := h
    constructor
    · intro c0 h0
      simp at h0
      rw [← h0]
      exact hstart
    · intro i ci cj hi hj
      cases i with
      | zero =>
        simp at hi
        have hcj := (ih (t + c.source_range.duration) hrest).1 cj (by simpa using hj)
        rw [hcj, ← hi, hstart]
      | succ n =>
        exact (ih _ hrest).2 n ci cj (by simpa using hi) (by simpa using hj)

lemma read_from_file_ok_inv (fp : String) (md : Metadata) (lines : List Line) (tl : Timeline)
    (h : read_from_file fp md lines = Except.ok tl) :
    ∃ evs srcs lastEv s0 clips,
      parseEvents lines = Except.ok evs ∧ md.sources = some srcs ∧
      evs.getLast? = some lastEv ∧ initialSource md = Except.ok s0 ∧
      reconstruct
        (buildExtrefs { start_time := 0, duration := lastEv.masterTimecode - md.masterTimecode } srcs)
        md.masterTimecode 0 s0 evs = Except.ok clips ∧
      tl = { name := timelineNameOf fp, tracks := [{ name := "Main Mix", clips := clips }] } := by
  cases hp : parseEvents lines with
  | error e => simp [read_from_file, hp] at h
  | ok evs =>
    cases hs : md.sources with
    | none => simp [read_from_file, hp, hs] at h
    | some srcs =>
      cases hl : evs.getLast? with
      | none => simp [read_from_file, hp, hs, hl] at h
      | some lastEv =>
        cases hi : initialSource md with
        | error e => simp [read_from_file, hp, hs, hl, hi] at h
        | ok s0 =>
          cases hr : reconstruct
              (buildExtrefs { start_time := 0, duration := lastEv.masterTimecode - md.masterTimecode } srcs)
              md.masterTimecode 0 s0 evs with
          | error e => simp [read_from_file, hp, hs, hl, hi, hr] at h
          | ok clips =>
            simp [read_from_file, hp, hs, hl, hi, hr] at h
            exact ⟨evs, srcs, lastEv, s0, clips, rfl, rfl, hl, rfl, hr, h.symm⟩

/-! Claim theorems. -/

/-- C1. The loop uses next_clip_frames = eventFrame − referenceFrame, the
    absolute offset of the event from the reference, as the clip duration,
    never subtracting the running cursor: on the concrete example the
    second clip starts at frame 10 but gets duration 20 (its event frame
    offset), while the duration the spec prescribes, eventFrame minus
    currentFrame, is 10. -/
theorem clip_duration_is_absolute_offset :
    read_from_file "show.drp" exMeta exLines = Except.ok exTl ∧
    exClip2.source_range.duration = 20 ∧
    specDuration (ev2.masterTimecode - exMeta.masterTimecode)
      exClip2.source_range.start_time = 10 :=
  ⟨rfl, rfl, rfl⟩

/-- C2. On the concrete example the emitted durations sum to 30 while
    lastEventFrame − referenceFrame is 20: the sum-of-durations property
    fails on the code because each duration is an absolute offset. -/
theorem durations_sum_is_not_show_length :
    read_from_file "show.drp" exMeta exLines = Except.ok exTl ∧
    sumDurations exClips = 30 ∧
    ev2.masterTimecode - exMeta.masterTimecode = 20 :=
  ⟨rfl, rfl, rfl⟩

/-- C3. Every timeline read_from_file returns has contiguous,
    non-overlapping clips: clip 0 starts at frame 0 and each following
    clip starts where the previous one ends. -/
theorem clips_contiguous (fp : String) (md : Metadata) (lines : List Line) (tl : Timeline)
    (tr : Track) (h : read_from_file fp md lines = Except.ok tl) (htr : tl.tracks = [tr]) :
    (∀ c0, tr.clips[0]? = some c0 → c0.source_range.start_time = 0) ∧
    (∀ i ci cj, tr.clips[i]? = some ci → tr.clips[i + 1]? = some cj →
      cj.source_range.start_time = ci.source_range.start_time + ci.source_range.duration) := by
  obtain ⟨evs, srcs, lastEv, s0, clips, hp, hs, hl, hi, hr, htl⟩ :=
    read_from_file_ok_inv fp md lines tl h
  have hcont := reconstruct_contiguous _ _ evs 0 s0 clips hr
  have hclips : tr.clips = clips := by
    rw [htl] at htr
    simp at htr
    rw [← htr]
  rw [hclips]
  exact contiguousFrom_getElem clips 0 hcont

/-- Witness for C3 at the concrete example. -/
theorem clips_contiguous_witness :
    exClip2.source_range.start_time =
      exClip1.source_range.start_time + exClip1.source_range.duration := by
  have h := clips_contiguous "show.drp" exMeta exLines exTl
    { name := "Main Mix", clips := exClips } rfl rfl
  exact h.2 0 exClip1 exClip2 rfl rfl

/-- C4. The loop emits one clip per event up to and including the first
    event whose leading mix-effect block has no "source" key, and then
    stops: the events after that point do not change the result, and in
    the success case the clip count is the number of preceding events
    plus one. -/
theorem loop_halts_at_first_sourceless_event (er : List (Int × SrcEntry)) (tcRef : Int)
    (pre post : List SwitchEvent) (term : SwitchEvent)
    (hpre : ∀ c ∈ pre, ∃ b l s, c.mixEffectBlocks = b :: l ∧ b.source = some s)
    (hterm : ∃ b l, term.mixEffectBlocks = b :: l ∧ b.source = none) (t s : Int) :
    reconstruct er tcRef t s (pre ++ term :: post) = reconstruct er tcRef t s (pre ++ [term]) ∧
    (∀ clips, reconstruct er tcRef t s (pre ++ [term]) = Except.ok clips →
      clips.length = pre.length + 1) := by
  induction pre generalizing t s with
  | nil =>
    obtain ⟨b, l, hmb, hbs⟩ := hterm
    simp only [List.nil_append]
    cases hd : dictGet er s with
    | none =>
      constructor
      · simp [reconstruct, hd]
      · intro clips hc
        simp [reconstruct, hd] at hc
    | some src =>
      constructor
      · simp [reconstruct, hd, hmb, hbs]
      · intro clips hc
        simp [reconstruct, hd, hmb, hbs] at hc
        subst hc
        rfl
  | cons c rest ih =>
    obtain ⟨b, l, s2, hmb, hbs⟩ := hpre c (by simp)
    have hrest : ∀ x ∈ rest, ∃ b l s, x.mixEffectBlocks = b :: l ∧ b.source = some s :=
      fun x hx => hpre x (by simp [hx])
    simp only [List.cons_append]
    cases hd : dictGet er s with
    | none =>
      constructor
      · simp [reconstruct, hd]
      · intro clips hc
        simp [reconstruct, hd] at hc
    | some src =>
      have IH := ih hrest (t + (c.masterTimecode - tcRef)) s2
      constructor
      · simp only [reconstruct, hd, hmb, hbs]
        rw [IH.1]
      · intro clips hc
        simp only [reconstruct, hd, hmb, hbs] at hc
        cases hr : reconstruct er tcRef (t + (c.masterTimecode - tcRef)) s2 (rest ++ [term]) with
        | error e => rw [hr] at hc; simp at hc
        | ok cs =>
          rw [hr] at hc
          simp at hc
          subst hc
          simp [IH.2 cs hr]

/-- Witness for C4: with a further event sitting after the terminal one,
    the result is the same as without it, and two clips are emitted for
    one pre-terminal event plus the terminal event. -/
theorem loop_halts_witness :
    reconstruct exExtrefs 100 0 0 [ev1, ev2, ev3] = reconstruct exExtrefs 100 0 0 [ev1, ev2] ∧
    exClips.length = 1 + 1 := by
  have h := loop_halts_at_first_sourceless_event exExtrefs 100 [ev1] [ev3] ev2
    (by
      intro c hc
      simp at hc
      subst hc
      exact ⟨{ source := some 2 }, [], 2, rfl, rfl⟩)
    ⟨{ source := none }, [], rfl, rfl⟩ 0 0
  exact ⟨h.1, h.2 exClips rfl⟩

/-- C5 counterexample. A header whose mixEffectBlocks array is present but
    empty makes the conversion fail with the uncaught IndexError from
    metadata["mixEffectBlocks"][0], refuting "the conversion does not
    fail" for an empty array. -/
theorem empty_mixEffectBlocks_fails :
    read_from_file "show.drp" mdEmptyMEB exLines = Except.error DrpError.indexError := rfl

/-- C5 amended. The initially active source defaults to 0 when the
    mixEffectBlocks key is missing or when the first block lacks the
    source key (both KeyError, caught); an empty mixEffectBlocks array
    instead raises an uncaught IndexError and the conversion fails. -/
theorem initialSource_policy (md : Metadata) :
    (md.mixEffectBlocks = none → initialSource md = Except.ok 0) ∧
    (∀ b l, md.mixEffectBlocks = some (b :: l) → b.source = none →
      initialSource md = Except.ok 0) ∧
    (md.mixEffectBlocks = some [] → initialSource md = Except.error DrpError.indexError) := by
  refine ⟨fun h => by simp [initialSource, h],
    fun b l h hb => by simp [initialSource, h, hb],
    fun h => by simp [initialSource, h]⟩

/-- Witness for C5 amended at three concrete headers. -/
theorem initialSource_policy_witness :
    initialSource mdNoMEB = Except.ok 0 ∧
    initialSource mdNoSourceKey = Except.ok 0 ∧
    initialSource mdEmptyMEB = Except.error DrpError.indexError :=
  ⟨(initialSource_policy mdNoMEB).1 rfl,
   (initialSource_policy mdNoSourceKey).2.1 { source := none } [] rfl rfl,
   (initialSource_policy mdEmptyMEB).2.2 rfl⟩

/-- C6. With an empty event sequence the conversion always fails
    (timeline_data[-1] has nothing to read, or the sources check fails
    first), so no timeline and no clip is ever produced. -/
theorem empty_events_fails (fp : String) (md : Metadata) :
    ∃ e, read_from_file fp md [] = Except.error e := by
  cases hs : md.sources with
  | none => exact ⟨DrpError.noSources, by simp [read_from_file, parseEvents, hs]⟩
  | some srcs =>
    exact ⟨DrpError.indexError, by simp [read_from_file, parseEvents, hs, List.getLast?]⟩

/-- C7. A header with the sources key absent, or with an empty sources
    array, always makes the conversion abort with an error: no timeline
    is returned. -/
theorem bad_sources_fails (fp : String) (md : Metadata) (lines : List Line)
    (h : md.sources = none ∨ md.sources = some []) :
    ∃ e, read_from_file fp md lines = Except.error e := by
  cases hp : parseEvents lines with
  | error e => exact ⟨e, by simp [read_from_file, hp]⟩
  | ok evs =>
    cases h with
    | inl hn => exact ⟨DrpError.noSources, by simp [read_from_file, hp, hn]⟩
    | inr he =>
      cases hl : evs.getLast? with
      | none => exact ⟨DrpError.indexError, by simp [read_from_file, hp, he, hl]⟩
      | some lastEv =>
        cases hi : initialSource md with
        | error e => exact ⟨e, by simp [read_from_file, hp, he, hl, hi]⟩
        | ok s0 =>
          cases evs with
          | nil => simp [List.getLast?] at hl
          | cons c rest =>
            exact ⟨DrpError.keyError,
              by simp [read_from_file, hp, he, hl, hi, reconstruct, buildExtrefs, dictGet]⟩

/-- Witness for C7 at two concrete headers. -/
theorem bad_sources_fails_witness :
    (∃ e, read_from_file "show.drp" mdNoSources exLines = Except.error e) ∧
    (∃ e, read_from_file "show.drp" mdEmptySources exLines = Except.error e) :=
  ⟨bad_sources_fails "show.drp" mdNoSources exLines (Or.inl rfl),
   bad_sources_fails "show.drp" mdEmptySources exLines (Or.inr rfl)⟩

/-- C8 counterexample. A blank line among the event lines is not skipped:
    json.loads of the stripped empty string raises, so the conversion
    fails, while the same input without the blank line succeeds. -/
theorem blank_line_counterexample :
    read_from_file "show.drp" exMeta [Line.good ev1, Line.blank, Line.good ev2] =
      Except.error DrpError.jsonDecodeError ∧
    read_from_file "show.drp" exMeta [Line.good ev1, Line.good ev2] = Except.ok exTl :=
  ⟨rfl, rfl⟩

/-- C8 amended. Any input containing a blank event line makes the whole
    conversion abort with the JSON decode error. -/
theorem blank_line_aborts (fp : String) (md : Metadata) (lines : List Line)
    (h : Line.blank ∈ lines) :
    read_from_file fp md lines = Except.error DrpError.jsonDecodeError := by
  simp [read_from_file, parseEvents_jsonError_of_mem lines (Or.inl h)]

/-- Witness for C8 amended at a concrete input. -/
theorem blank_line_aborts_witness :
    read_from_file "show.drp" exMeta [Line.blank] = Except.error DrpError.jsonDecodeError :=
  blank_line_aborts "show.drp" exMeta [Line.blank] (by simp)

/-- C9. Event lines are decoded eagerly before the loop runs, so an
    undecodable line anywhere among the event lines, in particular after
    a terminal event, aborts the whole conversion with the decode
    error. -/
theorem bad_line_aborts (fp : String) (md : Metadata) (before after : List Line) :
    read_from_file fp md (before ++ Line.bad :: after) =
      Except.error DrpError.jsonDecodeError := by
  have h : Line.bad ∈ before ++ Line.bad :: after := by simp
  simp [read_from_file, parseEvents_jsonError_of_mem _ (Or.inr h)]

/-- C10. When the running active source index is not a key of the extrefs
    dict, the loop aborts with the KeyError before emitting the clip of
    that step. -/
theorem unknown_source_aborts (er : List (Int × SrcEntry)) (tcRef t s : Int)
    (c : SwitchEvent) (rest : List SwitchEvent) (h : dictGet er s = none) :
    reconstruct er tcRef t s (c :: rest) = Except.error DrpError.keyError := by
  simp [reconstruct, h]

/-- Witness for C10: the default source 0 is not catalogued in an empty
    dict, so the first step fails. -/
theorem unknown_source_aborts_witness :
    reconstruct [] 100 0 0 [ev1] = Except.error DrpError.keyError :=
  unknown_source_aborts [] 100 0 0 ev1 [] rfl

end Drp
